import Mathlib

/-!
Shallow embedding of the UEFORMAT binary model reader from
`source/blender/io/ueformat/importer/uef_model_reader.cc` and the
material-assignment portion of `uef_importer.cc`.

Modelling conventions:
* A byte buffer (`char *Data` / a `FILE` already read into memory) is a
  `List Nat` of byte values; cursor offsets are naturals.
* The C++ reader performs no bounds checks; an out-of-range read in the
  embedding yields byte 0 (zero-filled memory).  The embedding records the
  cursor positions faithfully, so reads past the end are visible as final
  offsets exceeding the buffer length.
* 32-bit integers are decoded little-endian.  Counts, sizes and string
  lengths are decoded as unsigned naturals (`readU32`); fields whose
  signedness the code actually uses (material `FirstIndex`, `NumFaces`)
  are decoded as two's-complement integers (`readI32`).
* `float`-typed payloads (`float2`, `float3`, `float4`, packed weight and
  morph records) are copied verbatim by the code (`memcpy`) and never
  inspected arithmetically, so they are modelled as raw byte records of
  the corresponding `sizeof` (8, 12, 16, 12, 28 bytes).
* The while-loops of `ReadLods` and `ReadModel` are encoded with an
  explicit iteration budget equal to `bound - off`; every loop body
  advances the cursor by at least 12 bytes, so the budget is never the
  reason the loop stops (see `readChunksGo_ge` and `readModelGo_ge`).
-/

set_option maxRecDepth 4000

namespace UEF

/-- Byte fetch of `Data[i]`; out-of-range reads yield 0. -/
def byteAt (d : List Nat) (i : Nat) : Nat := d.getD i 0

/-- A `memcpy` of `n` bytes starting at offset `off`. -/
def readBytesList (d : List Nat) (off n : Nat) : List Nat :=
  (List.range n).map (fun i => byteAt d (off + i))

/-- Little-endian unsigned 32-bit read, `*(int *)&Data[Offset]`. -/
def readU32 (d : List Nat) (off : Nat) : Nat :=
  byteAt d off + 256 * byteAt d (off + 1) + 65536 * byteAt d (off + 2) +
    16777216 * byteAt d (off + 3)

/-- Little-endian 32-bit read as a signed two's-complement value. -/
def readI32 (d : List Nat) (off : Nat) : Int :=
  if readU32 d off < 2147483648 then (readU32 d off : Int)
  else (readU32 d off : Int) - 4294967296

/-- Bytes reinterpreted as a string (one char per byte, as the code's
`std::string` holds raw bytes). -/
def bytesToString (bs : List Nat) : String := String.mk (bs.map Char.ofNat)

/-- Embedding of `ReadString(std::string &str, char *Data, long &Offset)`
(uef_model_reader.cc lines 30-37): reads a 32-bit length then that many
payload bytes, advancing the cursor past both.  No bounds check is
performed by the source. -/
def ReadString (d : List Nat) (off : Nat) : String × Nat :=
  (bytesToString (readBytesList d (off + 4) (readU32 d off)), off + 4 + readU32 d off)

/-- Embedding of `ReadString(std::string &str, FILE *File, size_t len)`
(lines 24-28): fixed-length string read. -/
def ReadStringFixed (d : List Nat) (off n : Nat) : String × Nat :=
  (bytesToString (readBytesList d off n), off + n)

/-- Embedding of `ReadStruct(char *Data, long &Offset, void *Struct, long Size)`
(lines 44-48): memcpy `Size` bytes and advance the cursor. -/
def ReadStruct (d : List Nat) (off size : Nat) : List Nat × Nat :=
  (readBytesList d off size, off + size)

/-- `FVertexColorChunk` from uef_model_reader.hh: a channel name and
`char4` colour entries (4 raw bytes each). -/
structure FVertexColorChunk where
  Name : String
  Data : List (List Nat)
deriving DecidableEq, Inhabited

/-- `FMaterialChunk` from uef_model_reader.hh. -/
structure FMaterialChunk where
  Name : String
  FirstIndex : Int
  NumFaces : Int
deriving DecidableEq, Inhabited

/-- `FMorphTargetChunk`: a morph name and `FMorphTargetDataChunk` records
(28 raw bytes each: float3 + float3 + int). -/
structure FMorphTargetChunk where
  MorphName : String
  MorphDeltas : List (List Nat)
deriving DecidableEq, Inhabited

/-- `FLODData` from uef_model_reader.hh.  Vertices are `float3` (12-byte)
records, Normals are `float4` (16-byte) records, Weights are
`FWeightChunk` (12-byte) records, texture coordinates are channels of
`float2` (8-byte) records. -/
structure FLODData where
  LODName : String
  Vertices : List (List Nat)
  Indices : List Nat
  Normals : List (List Nat)
  Tangents : List (List Nat)
  VertexColors : List FVertexColorChunk
  TextureCoordinates : List (List (List Nat))
  Materials : List FMaterialChunk
  Weights : List (List Nat)
  Morphs : List FMorphTargetChunk
deriving DecidableEq, Inhabited

/-- `FBoneChunk` from uef_model_reader.hh (never populated by the reader). -/
structure FBoneChunk where
  BoneName : String
  BoneParentIndex : Int
  BonePos : List Nat
  BoneRot : List Nat
deriving DecidableEq, Inhabited

/-- `FSocketChunk` from uef_model_reader.hh (never populated by the reader). -/
structure FSocketChunk where
  SocketName : String
  SocketParentName : String
  SocketPos : List Nat
  SocketRot : List Nat
  SocketScale : List Nat
deriving DecidableEq, Inhabited

/-- `FSkeletonData` from uef_model_reader.hh. -/
structure FSkeletonData where
  Bones : List FBoneChunk
  Sockets : List FSocketChunk
deriving DecidableEq, Inhabited

/-- `FUEFormatHeader` from uef_model_reader.hh.  The version byte is kept
as a natural (0-255). -/
structure FUEFormatHeader where
  Identifier : String
  FileVersionBytes : Nat
  ObjectName : String
  IsCompressed : Bool
  CompressionType : String
  CompressedSize : Nat
  UncompressedSize : Nat
deriving DecidableEq, Inhabited

/-- `FUEModelData` from uef_model_reader.hh. -/
structure FUEModelData where
  Header : FUEFormatHeader
  LODs : List FLODData
  Skeleton : FSkeletonData
deriving DecidableEq, Inhabited

/-- Error kinds named by the specification (section 7).  The source code
signals the last four by printing and returning `nullptr`; the remaining
kinds have no corresponding code path. -/
inductive UEFError where
  | InvalidMagic
  | UnsupportedFormat
  | UnsupportedVersion
  | UnsupportedCompression
  | DecompressionSizeMismatch
  | TruncatedInput
  | MalformedChunk
  | MalformedLOD
  | MalformedModel
  | FileOpenFailure
deriving DecidableEq, Inhabited

def UEF_MAGIC : String := "UEFORMAT"

def nUEMODEL : String := "UEMODEL"

def nZSTD : String := "ZSTD"

def nLODS : String := "LODS"

def tagVERTICES : String := "VERTICES"

def tagINDICES : String := "INDICES"

def tagNORMALS : String := "NORMALS"

def tagTANGENTS : String := "TANGENTS"

def tagVERTEXCOLORS : String := "VERTEXCOLORS"

def tagTEXCOORDS : String := "TEXCOORDS"

def tagMATERIALS : String := "MATERIALS"

def tagWEIGHTS : String := "WEIGHTS"

def tagMORPHTARGETS : String := "MORPHTARGETS"

/-- The chunk tags the LOD assembler decodes into typed arrays (every
`if` branch of the chunk dispatch except the TANGENTS skip and the final
skip). -/
def decodedTags : List String :=
  [tagVERTICES, tagINDICES, tagNORMALS, tagVERTEXCOLORS, tagTEXCOORDS,
   tagMATERIALS, tagWEIGHTS, tagMORPHTARGETS]

/-- The VERTEXCOLORS inner loop (lines 87-99): for each of `n` entries
read a name, a 32-bit count, then that many `char4` (4-byte) colours. -/
def readVertexColorList (d : List Nat) : Nat → Nat → List FVertexColorChunk × Nat
  | 0, off => ([], off)
  | n + 1, off =>
    let s := ReadString d off
    let sz := readU32 d s.2
    let entry : FVertexColorChunk :=
      ⟨s.1, (List.range sz).map (fun j => readBytesList d (s.2 + 4 + 4 * j) 4)⟩
    let rest := readVertexColorList d n (s.2 + 4 + sz * 4)
    (entry :: rest.1, rest.2)

/-- The TEXCOORDS inner loop (lines 101-112): for each of `n` channels
read a 32-bit count then that many `float2` (8-byte) records. -/
def readTexCoordList (d : List Nat) : Nat → Nat → List (List (List Nat)) × Nat
  | 0, off => ([], off)
  | n + 1, off =>
    let sz := readU32 d off
    let entry := (List.range sz).map (fun j => readBytesList d (off + 4 + 8 * j) 8)
    let rest := readTexCoordList d n (off + 4 + sz * 8)
    (entry :: rest.1, rest.2)

/-- The MATERIALS inner loop (lines 113-122): for each of `n` entries
read a name, a 32-bit `FirstIndex` and a 32-bit `NumFaces`. -/
def readMaterialList (d : List Nat) : Nat → Nat → List FMaterialChunk × Nat
  | 0, off => ([], off)
  | n + 1, off =>
    let s := ReadString d off
    let entry : FMaterialChunk := ⟨s.1, readI32 d s.2, readI32 d (s.2 + 4)⟩
    let rest := readMaterialList d n (s.2 + 8)
    (entry :: rest.1, rest.2)

/-- The MORPHTARGETS inner loop (lines 127-143): for each of `n` entries
read a name, a 32-bit delta count, then that many `FMorphTargetDataChunk`
(28-byte) records. -/
def readMorphList (d : List Nat) : Nat → Nat → List FMorphTargetChunk × Nat
  | 0, off => ([], off)
  | n + 1, off =>
    let s := ReadString d off
    let nd := readU32 d s.2
    let entry : FMorphTargetChunk :=
      ⟨s.1, (List.range nd).map (fun j => readBytesList d (s.2 + 4 + 28 * j) 28)⟩
    let rest := readMorphList d n (s.2 + 4 + nd * 28)
    (entry :: rest.1, rest.2)

/-- One iteration of the chunk-dispatch while-loop of `ReadLods`
(uef_model_reader.cc lines 62-146): read the chunk tag, the element count
`Num` and the declared `DataSize`, then decode or skip.  Recognized
fixed-stride chunks advance by `Num * sizeof(element)`; the TANGENTS
branch and the final `else` advance by `DataSize`; nested chunks advance
by the size of the nested content actually read. -/
def readChunk (d : List Nat) (lod : FLODData) (off : Nat) : FLODData × Nat :=
  let ht := ReadString d off
  let num := readU32 d ht.2
  let dsize := readU32 d (ht.2 + 4)
  let p := ht.2 + 8
  if ht.1 = tagVERTICES then
    ({ lod with Vertices := (List.range num).map (fun j => readBytesList d (p + 12 * j) 12) },
      p + num * 12)
  else if ht.1 = tagINDICES then
    ({ lod with Indices := (List.range num).map (fun j => readU32 d (p + 4 * j)) },
      p + num * 4)
  else if ht.1 = tagNORMALS then
    ({ lod with Normals := (List.range num).map (fun j => readBytesList d (p + 16 * j) 16) },
      p + num * 16)
  else if ht.1 = tagTANGENTS then
    (lod, p + dsize)
  else if ht.1 = tagVERTEXCOLORS then
    let r := readVertexColorList d num p
    ({ lod with VertexColors := r.1 }, r.2)
  else if ht.1 = tagTEXCOORDS then
    let r := readTexCoordList d num p
    ({ lod with TextureCoordinates := r.1 }, r.2)
  else if ht.1 = tagMATERIALS then
    let r := readMaterialList d num p
    ({ lod with Materials := r.1 }, r.2)
  else if ht.1 = tagWEIGHTS then
    ({ lod with Weights := (List.range num).map (fun j => readBytesList d (p + 12 * j) 12) },
      p + num * 12)
  else if ht.1 = tagMORPHTARGETS then
    let r := readMorphList d num p
    ({ lod with Morphs := r.1 }, r.2)
  else
    (lod, p + dsize)

/-- The chunk while-loop `while (LodsOffset < Offset + LodsSize)`
(line 62), with an explicit iteration budget.  Each `readChunk` advances
the cursor by at least 12 bytes (`readChunk_advance`), so a budget of
`bound - off` always suffices and the loop stops only because the
condition fails, exactly as in the source. -/
def readChunksGo (d : List Nat) (bound : Nat) : Nat → FLODData → Nat → FLODData × Nat
  | 0, lod, off => (lod, off)
  | fuel + 1, lod, off =>
    if off < bound then
      let r := readChunk d lod off
      readChunksGo d bound fuel r.1 r.2
    else (lod, off)

def readChunksLoop (d : List Nat) (lod : FLODData) (off bound : Nat) : FLODData × Nat :=
  readChunksGo d bound (bound - off) lod off

/-- One LOD of the `ReadLods` outer loop (lines 53-150): read the LOD
name and the declared region size `LodsSize`, run the chunk loop over the
region, then advance the outer cursor by exactly `LodsSize`
(`Offset += LodsSize`, line 149) regardless of what the chunk loop
consumed. -/
def readLOD (d : List Nat) (prev : FLODData) (off : Nat) : FLODData × Nat :=
  let s := ReadString d off
  let lodsSize := readU32 d s.2
  let start := s.2 + 4
  let r := readChunksLoop d { prev with LODName := s.1 } start (start + lodsSize)
  (r.1, start + lodsSize)

def readLodsAux (d : List Nat) : List FLODData → Nat → List FLODData × Nat
  | [], off => ([], off)
  | l :: ls, off =>
    let r := readLOD d l off
    let rest := readLodsAux d ls r.2
    (r.1 :: rest.1, rest.2)

/-- `lods.resize(numLods)` (line 52): keep existing elements, pad with
value-initialized entries. -/
def resizeLods (lods : List FLODData) (n : Nat) : List FLODData :=
  lods.take n ++ List.replicate (n - lods.length) default

/-- Embedding of `ReadLods` (lines 50-151). -/
def ReadLods (lods : List FLODData) (numLods : Nat) (d : List Nat) (off : Nat) :
    List FLODData × Nat :=
  readLodsAux d (resizeLods lods numLods) off

/-- The section while-loop of `ReadModel` (lines 164-188), with an
explicit iteration budget; each iteration advances the cursor by at least
12 bytes, so `size - off` iterations always suffice. -/
def readModelGo (d : List Nat) (size : Nat) : Nat → List FLODData → Nat → List FLODData × Nat
  | 0, lods, off => (lods, off)
  | fuel + 1, lods, off =>
    if off < size then
      let s := ReadString d off
      let num := readU32 d s.2
      let dsize := readU32 d (s.2 + 4)
      if s.1 = nLODS then
        let r := ReadLods lods num d (s.2 + 8)
        readModelGo d size fuel r.1 r.2
      else
        readModelGo d size fuel lods (s.2 + 8 + dsize)
    else (lods, off)

/-- Embedding of `ReadModel` (lines 158-189): decode sections until the
cursor leaves the decompressed buffer.  Only `LODS` sections are decoded;
all others are skipped by their declared byte length. -/
def ReadModel (lods : List FLODData) (d : List Nat) (off size : Nat) : List FLODData × Nat :=
  readModelGo d size (size - off) lods off

/-! Container reader, `ReadUEFModelData(FILE *)` (lines 207-313).  The
header reads are pure projections of the file bytes; the helpers below
name each field's position so that the main definition mirrors the
source's sequential reads. -/

/-- `ReadString(Header.Identifier, File)` (line 221), positioned right
after the 8 magic bytes. -/
def identStr (file : List Nat) : String := (ReadString file 8).1

def identEnd (file : List Nat) : Nat := (ReadString file 8).2

/-- `fread(&Header.FileVersionBytes, sizeof(char), 1, File)` (line 222). -/
def versionByte (file : List Nat) : Nat := byteAt file (identEnd file)

/-- The version gate's condition, line 229: `!(v <= 5 || v > 3)`. -/
def versionCheckFails (v : Nat) : Bool := decide (¬ (v ≤ 5 ∨ v > 3))

/-- `ReadString(Header.ObjectName, File)` (line 235). -/
def objNameStr (file : List Nat) : String := (ReadString file (identEnd file + 1)).1

def objEnd (file : List Nat) : Nat := (ReadString file (identEnd file + 1)).2

/-- `fread(&Header.IsCompressed, sizeof(bool), 1, File)` (line 236). -/
def isCompressedByte (file : List Nat) : Nat := byteAt file (objEnd file)

/-- `ReadString(Header.CompressionType, File)` (line 238). -/
def compTypeStr (file : List Nat) : String := (ReadString file (objEnd file + 1)).1

def compTypeEnd (file : List Nat) : Nat := (ReadString file (objEnd file + 1)).2

/-- `ReadStruct(File, &Header.UncompressedSize, sizeof(int))` (line 239). -/
def declaredUncompressedSize (file : List Nat) : Nat := readU32 file (compTypeEnd file)

/-- `ReadStruct(File, &Header.CompressedSize, sizeof(int))` (line 240). -/
def declaredCompressedSize (file : List Nat) : Nat := readU32 file (compTypeEnd file + 4)

/-- `ReadStruct(File, CompressedData, Header.CompressedSize)` (line 254). -/
def compressedPayload (file : List Nat) : List Nat :=
  readBytesList file (compTypeEnd file + 8) (declaredCompressedSize file)

def uncompressedPayloadStart (file : List Nat) : Nat := objEnd file + 1

/-- `DecompressedSize = EndPos - CurrentPos` (line 293). -/
def uncompressedPayloadSize (file : List Nat) : Nat :=
  file.length - uncompressedPayloadStart file

/-- `ReadStruct(File, DecompressedData, DecompressedSize)` (line 295). -/
def uncompressedPayload (file : List Nat) : List Nat :=
  readBytesList file (uncompressedPayloadStart file) (uncompressedPayloadSize file)

/-- The header record assembled on the compressed path (lines 220-241). -/
def compHeader (file : List Nat) : FUEFormatHeader :=
  ⟨identStr file, versionByte file, objNameStr file, true, compTypeStr file,
    declaredCompressedSize file, declaredUncompressedSize file⟩

/-- The header record assembled on the uncompressed path; the compression
fields are left at their value-initialized defaults (the source leaves
them unread). -/
def uncompHeader (file : List Nat) : FUEFormatHeader :=
  ⟨identStr file, versionByte file, objNameStr file, false, default, 0, 0⟩

/-- Lines 302-305: `ReadModel` runs only when the identifier is
`UEMODEL`; any other identifier leaves the LOD list empty. -/
def modelLods (buf : List Nat) (size : Nat) (ident : String) : List FLODData :=
  if ident = nUEMODEL then (ReadModel [] buf 0 size).1 else []

/-- Embedding of `ReadUEFModelData(FILE *File)` (lines 207-313).  The
external decompression service (`ZSTD_decompress`, used opaquely) is the
parameter `z`, taking the compressed bytes and the destination capacity
and returning the reported output size together with the output bytes.

The source returns the freshly allocated (value-initialized) `Data`
object on a magic mismatch (`return Data;`, line 217) — an `ok` result —
and signals the version / decompression / compression-type failures by
returning `nullptr` after a diagnostic print; those distinct print sites
are modelled as distinct error kinds, all mapping to a null pointer
through `returnedPtr`. -/
def ReadUEFModelData (z : List Nat → Nat → Nat × List Nat) (file : List Nat) :
    Except UEFError FUEModelData :=
  if bytesToString (readBytesList file 0 8) ≠ UEF_MAGIC then
    Except.ok default
  else if versionCheckFails (versionByte file) then
    Except.error UEFError.UnsupportedVersion
  else if isCompressedByte file ≠ 0 then
    if compTypeStr file = nZSTD then
      if (z (compressedPayload file) (declaredUncompressedSize file)).1 ≠
          declaredUncompressedSize file then
        Except.error UEFError.DecompressionSizeMismatch
      else
        Except.ok ⟨compHeader file,
          modelLods (z (compressedPayload file) (declaredUncompressedSize file)).2
            (declaredUncompressedSize file) (identStr file), default⟩
    else
      Except.error UEFError.UnsupportedCompression
  else
    Except.ok ⟨uncompHeader file,
      modelLods (uncompressedPayload file) (uncompressedPayloadSize file) (identStr file),
      default⟩

/-- Embedding of `ReadUEFModelData(const std::string &FilePath)`
(lines 191-205): `fopen_s` failure returns `nullptr`; otherwise the file
contents are handed to the `FILE *` overload.  The open attempt's outcome
is the `openResult` parameter. -/
def ReadUEFModelDataPath (z : List Nat → Nat → Nat × List Nat)
    (openResult : Option (List Nat)) : Except UEFError FUEModelData :=
  match openResult with
  | none => Except.error UEFError.FileOpenFailure
  | some bytes => ReadUEFModelData z bytes

/-- The `FUEModelData *` value the caller observes: `none` is the
`nullptr` return, `some` a non-null pointer to the given model. -/
def returnedPtr (r : Except UEFError FUEModelData) : Option FUEModelData :=
  match r with
  | Except.ok m => some m
  | Except.error _ => none

/-- The material-assignment loop of `BuildUEModel`
(uef_importer.cc lines 69-75): starting from `mat_index = 0`, scan the
materials in order and on the first entry whose `FirstIndex` exceeds the
face index set `mat_index = i - 1` and break; if no entry qualifies,
`mat_index` keeps its initial value 0. -/
def matIndexForFace (mats : List FMaterialChunk) (faceIdx : Int) : Int :=
  match mats.findIdx? (fun m => decide (faceIdx < m.FirstIndex)) with
  | some i => (i : Int) - 1
  | none => 0

/-- The per-face material indices produced by the loop over
`face_idx = 0 .. faces_num - 1` (lines 67-79). -/
def materialIndexList (mats : List FMaterialChunk) (facesNum : Nat) : List Int :=
  (List.range facesNum).map (fun f => matIndexForFace mats (f : Int))

/-! Concrete test vectors.  `strBytes`, `u32le` and `lpS` only build
input byte lists (little-endian 32-bit fields and length-prefixed
strings, per the wire format); they are not part of the reader. -/

def strBytes (s : String) : List Nat := s.data.map Char.toNat

def u32le (n : Nat) : List Nat := [n % 256, n / 256 % 256, n / 65536 % 256, n / 16777216 % 256]

def lpS (s : String) : List Nat := u32le s.length ++ strBytes s

def nUNKNOWNTAG : String := "UNKNOWNTAG"

def nXYZ : String := "XYZ"

def nLZ4 : String := "LZ4"

/-- A decompression service that reports 0 output bytes (never invoked on
the uncompressed paths where it appears). -/
def zNone : List Nat → Nat → Nat × List Nat := fun _ _ => (0, [])

/-- A decompression service that reports 90 output bytes regardless of
the requested capacity. -/
def z90 : List Nat → Nat → Nat × List Nat := fun _ _ => (90, [])

/-- Four bytes declaring a 100-byte string with no payload behind them. -/
def dLen100 : List Nat := [100, 0, 0, 0]

/-- A VERTICES chunk with 0 elements but a declared byte length of 16,
followed by 16 payload bytes. -/
def dVert0 : List Nat := lpS tagVERTICES ++ u32le 0 ++ u32le 16 ++ List.replicate 16 5

/-- An INDICES chunk with one element of value 9. -/
def dInd1 : List Nat := lpS tagINDICES ++ u32le 1 ++ u32le 4 ++ u32le 9

/-- A NORMALS chunk with one 16-byte element. -/
def dNorm1 : List Nat := lpS tagNORMALS ++ u32le 1 ++ u32le 16 ++ List.replicate 16 2

/-- A WEIGHTS chunk with two 12-byte elements. -/
def dWeights2 : List Nat := lpS tagWEIGHTS ++ u32le 2 ++ u32le 24 ++ List.replicate 24 4

/-- Scenario C: an unknown-tag chunk with declared byte length 16 and
arbitrary payload, followed by a valid VERTICES chunk with one element. -/
def dScenC : List Nat :=
  lpS nUNKNOWNTAG ++ u32le 0 ++ u32le 16 ++ List.replicate 16 9 ++
  lpS tagVERTICES ++ u32le 1 ++ u32le 12 ++ List.replicate 12 3

/-- An LOD region whose declared size (4) is smaller than its first
chunk (23 bytes): name `""`, `LodsSize = 4`, then the INDICES chunk. -/
def dLodOver : List Nat := u32le 0 ++ u32le 4 ++ dInd1

/-- A 15-byte buffer whose single section declares a byte length of 100,
sending the section cursor far past the end of the buffer. -/
def dSecOver : List Nat := lpS nXYZ ++ u32le 0 ++ u32le 100

/-- Scenario A: an uncompressed `UEMODEL` file with one LOD holding a
3-element VERTICES chunk (payload bytes all 7) and a 3-element INDICES
chunk with values 0, 1, 2. -/
def fileA : List Nat :=
  strBytes UEF_MAGIC ++ lpS nUEMODEL ++ [4] ++ u32le 0 ++ [0] ++
  lpS nLODS ++ u32le 1 ++ u32le 95 ++
  u32le 0 ++ u32le 87 ++
  lpS tagVERTICES ++ u32le 3 ++ u32le 36 ++ List.replicate 36 7 ++
  lpS tagINDICES ++ u32le 3 ++ u32le 12 ++ u32le 0 ++ u32le 1 ++ u32le 2

/-- The header Scenario A decodes to. -/
def headerA : FUEFormatHeader := ⟨nUEMODEL, 4, default, false, default, 0, 0⟩

/-- The single LOD Scenario A decodes to. -/
def lodA : FLODData :=
  { (default : FLODData) with
    Vertices := [List.replicate 12 7, List.replicate 12 7, List.replicate 12 7],
    Indices := [0, 1, 2] }

/-- A file whose first magic byte is 88 instead of 85, with trailing
bytes that a decoder continuing past the magic would misread. -/
def fBadMagic : List Nat := [88, 69, 70, 79, 82, 77, 65, 84, 1, 2, 3]

/-- A well-formed uncompressed `UEMODEL` file with an empty payload: it
decodes successfully to a model with zero LODs. -/
def fValidEmpty : List Nat := strBytes UEF_MAGIC ++ lpS nUEMODEL ++ [4] ++ u32le 0 ++ [0]

/-- A file whose version byte is 0 — outside the supported range (more
than 3, at most 5) — with empty identifier, object name and payload. -/
def fBadVersion : List Nat := strBytes UEF_MAGIC ++ u32le 0 ++ [0] ++ u32le 0 ++ [0]

/-- A compressed file declaring `ZSTD`, `uncompressed_size = 100` and an
empty compressed payload. -/
def fCompMismatch : List Nat :=
  strBytes UEF_MAGIC ++ u32le 0 ++ [4] ++ u32le 0 ++ [1] ++ lpS nZSTD ++ u32le 100 ++ u32le 0

/-- A compressed file declaring the unsupported algorithm `LZ4`. -/
def fCompUnsupported : List Nat :=
  strBytes UEF_MAGIC ++ u32le 0 ++ [4] ++ u32le 0 ++ [1] ++ lpS nLZ4 ++ u32le 100 ++ u32le 0

/-- Scenario D's material table: two materials with `FirstIndex` 0 and 5,
over 8 triangles. -/
def matsD : List FMaterialChunk := [⟨default, 0, 5⟩, ⟨default, 5, 3⟩]

/-! Cursor-progress facts.  They justify the iteration budgets of the two
while-loops: every loop body advances the cursor by at least 12 bytes, so
a budget of `bound - off` can never be exhausted before the loop
condition fails. -/

theorem ReadString_snd (d : List Nat) (off : Nat) :
    (ReadString d off).2 = off + 4 + readU32 d off := rfl

theorem readVertexColorList_le (d : List Nat) :
    ∀ n off, off ≤ (readVertexColorList d n off).2 := by
  intro n
  induction n with
  | zero => intro off; simp [readVertexColorList]
  | succ k ih =>
    intro off
    simp only [readVertexColorList]
    have h1 := ih ((ReadString d off).2 + 4 + readU32 d (ReadString d off).2 * 4)
    have h2 := ReadString_snd d off
    omega

theorem readTexCoordList_le (d : List Nat) :
    ∀ n off, off ≤ (readTexCoordList d n off).2 := by
  intro n
  induction n with
  | zero => intro off; simp [readTexCoordList]
  | succ k ih =>
    intro off
    simp only [readTexCoordList]
    have h1 := ih (off + 4 + readU32 d off * 8)
    omega

theorem readMaterialList_le (d : List Nat) :
    ∀ n off, off ≤ (readMaterialList d n off).2 := by
  intro n
  induction n with
  | zero => intro off; simp [readMaterialList]
  | succ k ih =>
    intro off
    simp only [readMaterialList]
    have h1 := ih ((ReadString d off).2 + 8)
    have h2 := ReadString_snd d off
    omega

theorem readMorphList_le (d : List Nat) :
    ∀ n off, off ≤ (readMorphList d n off).2 := by
  intro n
  induction n with
  | zero => intro off; simp [readMorphList]
  | succ k ih =>
    intro off
    simp only [readMorphList]
    have h1 := ih ((ReadString d off).2 + 4 + readU32 d (ReadString d off).2 * 28)
    have h2 := ReadString_snd d off
    omega

/-- Every chunk iteration moves the cursor at least past the 12 header
bytes (length prefix, element count, byte length). -/
theorem readChunk_advance (d : List Nat) (lod : FLODData) (off : Nat) :
    off + 12 ≤ (readChunk d lod off).2 := by
  have h2 := ReadString_snd d off
  have hv := readVertexColorList_le d (readU32 d (ReadString d off).2) ((ReadString d off).2 + 8)
  have ht := readTexCoordList_le d (readU32 d (ReadString d off).2) ((ReadString d off).2 + 8)
  have hm := readMaterialList_le d (readU32 d (ReadString d off).2) ((ReadString d off).2 + 8)
  have hp := readMorphList_le d (readU32 d (ReadString d off).2) ((ReadString d off).2 + 8)
  simp only [readChunk]
  split_ifs <;> simp only [] <;> omega

/-- With budget `bound - off` the chunk loop always runs until the
condition `LodsOffset < Offset + LodsSize` fails: the final cursor is at
or past the bound. -/
theorem readChunksGo_ge (d : List Nat) (bound : Nat) :
    ∀ fuel lod off, bound - off ≤ fuel → bound ≤ (readChunksGo d bound fuel lod off).2 := by
  intro fuel
  induction fuel with
  | zero => intro lod off h; simp only [readChunksGo]; omega
  | succ k ih =>
    intro lod off h
    simp only [readChunksGo]
    by_cases hb : off < bound
    · simp only [if_pos hb]
      apply ih
      have := readChunk_advance d lod off
      omega
    · simp only [if_neg hb]; omega

theorem readLodsAux_le (d : List Nat) :
    ∀ ls off, off ≤ (readLodsAux d ls off).2 := by
  intro ls
  induction ls with
  | nil => intro off; simp [readLodsAux]
  | cons l tail ih =>
    intro off
    simp only [readLodsAux, readLOD]
    have h1 := ih ((ReadString d off).2 + 4 + readU32 d (ReadString d off).2)
    have h2 := ReadString_snd d off
    omega

/-- With budget `size - off` the section loop always runs until the
condition `Offset < DecompressedSize` fails. -/
theorem readModelGo_ge (d : List Nat) (size : Nat) :
    ∀ fuel lods off, size - off ≤ fuel → size ≤ (readModelGo d size fuel lods off).2 := by
  intro fuel
  induction fuel with
  | zero => intro lods off h; simp only [readModelGo]; omega
  | succ k ih =>
    intro lods off h
    simp only [readModelGo]
    by_cases hb : off < size
    · simp only [if_pos hb]
      have h2 := ReadString_snd d off
      by_cases hl : (ReadString d off).1 = nLODS
      · simp only [if_pos hl]
        apply ih
        have h3 := readLodsAux_le d
          (resizeLods lods (readU32 d (ReadString d off).2)) ((ReadString d off).2 + 8)
        simp only [ReadLods]
        omega
      · simp only [if_neg hl]
        apply ih
        omega
    · simp only [if_neg hb]; omega

/-! Shared single-chunk lemmas about the dispatch of `readChunk`. -/

/-- A chunk whose tag is none of the typed decode tags — whether it is
TANGENTS or completely unrecognized — leaves the LOD untouched and moves
the cursor from the payload start by exactly the declared byte length. -/
theorem readChunk_skip_eq (d : List Nat) (lod : FLODData) (off : Nat)
    (h : (ReadString d off).1 ∉ decodedTags) :
    readChunk d lod off =
      (lod, (ReadString d off).2 + 8 + readU32 d ((ReadString d off).2 + 4)) := by
  simp only [decodedTags, List.mem_cons, List.not_mem_nil, or_false, not_or] at h
  obtain ⟨h1, h2, h3, h4, h5, h6, h7, h8⟩ := h
  simp only [readChunk]
  rw [if_neg h1, if_neg h2, if_neg h3]
  by_cases ht : (ReadString d off).1 = tagTANGENTS
  · rw [if_pos ht]
  · rw [if_neg ht, if_neg h4, if_neg h5, if_neg h6, if_neg h7, if_neg h8]

/-- A VERTICES chunk advances the cursor by `Num * sizeof(float3)`,
ignoring the declared byte length. -/
theorem readChunk_vertices_snd (d : List Nat) (lod : FLODData) (off : Nat)
    (h : (ReadString d off).1 = tagVERTICES) :
    (readChunk d lod off).2 = (ReadString d off).2 + 8 + readU32 d (ReadString d off).2 * 12 := by
  simp only [readChunk]
  rw [if_pos h]

/-- An INDICES chunk advances the cursor by `Num * sizeof(int)`. -/
theorem readChunk_indices_snd (d : List Nat) (lod : FLODData) (off : Nat)
    (h : (ReadString d off).1 = tagINDICES) :
    (readChunk d lod off).2 = (ReadString d off).2 + 8 + readU32 d (ReadString d off).2 * 4 := by
  have hv : (ReadString d off).1 ≠ tagVERTICES := by
    rw [h]; intro hc; exact absurd hc (by decide)
  simp only [readChunk]
  rw [if_neg hv, if_pos h]

/-- A NORMALS chunk advances the cursor by `Num * sizeof(float4)`. -/
theorem readChunk_normals_snd (d : List Nat) (lod : FLODData) (off : Nat)
    (h : (ReadString d off).1 = tagNORMALS) :
    (readChunk d lod off).2 = (ReadString d off).2 + 8 + readU32 d (ReadString d off).2 * 16 := by
  have hv : (ReadString d off).1 ≠ tagVERTICES := by
    rw [h]; intro hc; exact absurd hc (by decide)
  have hi : (ReadString d off).1 ≠ tagINDICES := by
    rw [h]; intro hc; exact absurd hc (by decide)
  simp only [readChunk]
  rw [if_neg hv, if_neg hi, if_pos h]

/-- A WEIGHTS chunk advances the cursor by `Num * sizeof(FWeightChunk)`. -/
theorem readChunk_weights_snd (d : List Nat) (lod : FLODData) (off : Nat)
    (h : (ReadString d off).1 = tagWEIGHTS) :
    (readChunk d lod off).2 = (ReadString d off).2 + 8 + readU32 d (ReadString d off).2 * 12 := by
  have hv : (ReadString d off).1 ≠ tagVERTICES := by
    rw [h]; intro hc; exact absurd hc (by decide)
  have hi : (ReadString d off).1 ≠ tagINDICES := by
    rw [h]; intro hc; exact absurd hc (by decide)
  have hn : (ReadString d off).1 ≠ tagNORMALS := by
    rw [h]; intro hc; exact absurd hc (by decide)
  have ht : (ReadString d off).1 ≠ tagTANGENTS := by
    rw [h]; intro hc; exact absurd hc (by decide)
  have hc1 : (ReadString d off).1 ≠ tagVERTEXCOLORS := by
    rw [h]; intro hc; exact absurd hc (by decide)
  have hc2 : (ReadString d off).1 ≠ tagTEXCOORDS := by
    rw [h]; intro hc; exact absurd hc (by decide)
  have hc3 : (ReadString d off).1 ≠ tagMATERIALS := by
    rw [h]; intro hc; exact absurd hc (by decide)
  simp only [readChunk]
  rw [if_neg hv, if_neg hi, if_neg hn, if_neg ht, if_neg hc1, if_neg hc2, if_neg hc3, if_pos h]

/-- The version gate's condition `!(v <= 5 || v > 3)` is false for every
byte value: every natural is at most 5 or exceeds 3, so the negation
never holds and the gate never fires. -/
theorem versionCheckFails_eq_false (v : Nat) : versionCheckFails v = false := by
  simp only [versionCheckFails, decide_eq_false_iff_not]
  omega

/-- On a magic mismatch `ReadUEFModelData` returns the freshly allocated,
value-initialized model object (`return Data;`, line 217). -/
theorem readUEF_magic_mismatch (z : List Nat → Nat → Nat × List Nat) (file : List Nat)
    (h : bytesToString (readBytesList file 0 8) ≠ UEF_MAGIC) :
    ReadUEFModelData z file = Except.ok default := by
  simp only [ReadUEFModelData]
  rw [if_pos h]

/-! Claim theorems. -/

/-- Claim C1: the primitive reads are claimed to fail with
`TruncatedInput` when fewer bytes remain than required, with a string's
32-bit length prefix validated before allocation.  The code has no such
check: on a 4-byte buffer declaring a 100-byte string, `ReadString`
builds the full 100-character string from past-the-end memory and
advances the cursor to 104, far beyond the 4 available bytes, and
`ReadStruct` consumes 4 bytes from an empty buffer without any failure
signal. -/
theorem primitive_reads_no_truncation_check :
    (ReadString dLen100 0).2 = 104 ∧
    (ReadString dLen100 0).1.length = 100 ∧
    dLen100.length = 4 ∧
    (ReadStruct ([] : List Nat) 0 4).1 = [0, 0, 0, 0] ∧
    (ReadStruct ([] : List Nat) 0 4).2 = 4 :=
  ⟨rfl, rfl, rfl, rfl, rfl⟩

/-- Claim C2: decoding is claimed to fail with `UnsupportedVersion` for
any version byte outside the supported range (greater than 3 and at most
5).  The version gate's condition `!(v <= 5 || v > 3)` is identically
false, so no version is ever rejected: a file with version byte 0
decodes to a success result. -/
theorem version_gate_never_rejects :
    (∀ v : Nat, versionCheckFails v = false) ∧
    ReadUEFModelData zNone fBadVersion = Except.ok default :=
  ⟨versionCheckFails_eq_false, rfl⟩

/-- Claim C3 counterexample: a VERTICES chunk with element count 0 but
declared byte length 16 advances the cursor from the payload start
(offset 20) by 0 bytes — not by the declared 16 — leaving it at 20
instead of 36. -/
theorem typed_chunk_ignores_declared_byte_length :
    (ReadString dVert0 0).1 = tagVERTICES ∧
    readU32 dVert0 ((ReadString dVert0 0).2 + 4) = 16 ∧
    (ReadString dVert0 0).2 + 8 = 20 ∧
    (readChunk dVert0 default 0).2 = 20 ∧
    ¬ (readChunk dVert0 default 0).2 =
        (ReadString dVert0 0).2 + 8 + readU32 dVert0 ((ReadString dVert0 0).2 + 4) := by
  refine ⟨rfl, rfl, rfl, rfl, ?_⟩
  intro h
  simp only [show (readChunk dVert0 default 0).2 = 20 from rfl] at h
  simp only [show (ReadString dVert0 0).2 + 8 + readU32 dVert0 ((ReadString dVert0 0).2 + 4) = 36
    from rfl] at h
  omega

/-- Claim C3 as amended: the declared byte length is authoritative for
the cursor only on the skip paths (TANGENTS and unrecognized tags), where
the chunk decoder advances the cursor from the payload start by exactly
the declared byte length; the recognized fixed-stride decode paths
advance by element count times the element stride (12 bytes for
VERTICES, 4 for INDICES, 16 for NORMALS, 12 for WEIGHTS), which
coincides with the declared byte length only when that field is
consistent with the element count. -/
theorem chunk_cursor_advance_by_path :
    (∀ d lod off, (ReadString d off).1 ∉ decodedTags →
        readChunk d lod off =
          (lod, (ReadString d off).2 + 8 + readU32 d ((ReadString d off).2 + 4))) ∧
    (∀ d lod off, (ReadString d off).1 = tagVERTICES →
        (readChunk d lod off).2 =
          (ReadString d off).2 + 8 + readU32 d (ReadString d off).2 * 12) ∧
    (∀ d lod off, (ReadString d off).1 = tagINDICES →
        (readChunk d lod off).2 =
          (ReadString d off).2 + 8 + readU32 d (ReadString d off).2 * 4) ∧
    (∀ d lod off, (ReadString d off).1 = tagNORMALS →
        (readChunk d lod off).2 =
          (ReadString d off).2 + 8 + readU32 d (ReadString d off).2 * 16) ∧
    (∀ d lod off, (ReadString d off).1 = tagWEIGHTS →
        (readChunk d lod off).2 =
          (ReadString d off).2 + 8 + readU32 d (ReadString d off).2 * 12) :=
  ⟨readChunk_skip_eq, readChunk_vertices_snd, readChunk_indices_snd,
   readChunk_normals_snd, readChunk_weights_snd⟩

theorem chunk_cursor_advance_by_path_witness :
    readChunk dScenC default 0 =
      (default, (ReadString dScenC 0).2 + 8 + readU32 dScenC ((ReadString dScenC 0).2 + 4)) ∧
    (readChunk dVert0 default 0).2 =
      (ReadString dVert0 0).2 + 8 + readU32 dVert0 (ReadString dVert0 0).2 * 12 ∧
    (readChunk dInd1 default 0).2 =
      (ReadString dInd1 0).2 + 8 + readU32 dInd1 (ReadString dInd1 0).2 * 4 ∧
    (readChunk dNorm1 default 0).2 =
      (ReadString dNorm1 0).2 + 8 + readU32 dNorm1 (ReadString dNorm1 0).2 * 16 ∧
    (readChunk dWeights2 default 0).2 =
      (ReadString dWeights2 0).2 + 8 + readU32 dWeights2 (ReadString dWeights2 0).2 * 12 :=
  ⟨chunk_cursor_advance_by_path.1 dScenC default 0 (by decide),
   chunk_cursor_advance_by_path.2.1 dVert0 default 0 rfl,
   chunk_cursor_advance_by_path.2.2.1 dInd1 default 0 rfl,
   chunk_cursor_advance_by_path.2.2.2.1 dNorm1 default 0 rfl,
   chunk_cursor_advance_by_path.2.2.2.2 dWeights2 default 0 rfl⟩

/-- Claim C4: decoding is claimed to fail with `MalformedLOD` /
`MalformedModel` when declared byte lengths disagree with consumed
bytes, and to never read past the declared boundary.  The code has no
such failure path: on an LOD region declaring 4 bytes whose first chunk
occupies 23, the chunk loop consumes up to offset 31 — past the declared
bound 12 — then returns normally, the outer cursor is advanced by the
declared 4 bytes, and the chunk's elements (read from beyond the
declared region) are kept; similarly the section loop, on a section
declaring 100 body bytes in a 15-byte buffer, finishes normally at
offset 115, overshooting the buffer end without any `MalformedModel`
signal. -/
theorem lod_overshoot_no_error :
    (readChunksLoop dLodOver default 8 12).2 = 31 ∧
    12 < (readChunksLoop dLodOver default 8 12).2 ∧
    ReadLods [] 1 dLodOver 0 =
      ([{ (default : FLODData) with Indices := [9] }], 12) ∧
    ReadModel [] dSecOver 0 15 = ([], 115) ∧
    dSecOver.length = 15 :=
  ⟨rfl, by decide, rfl, rfl, rfl⟩

/-- Claim C5: the geometry builder is claimed to assign material 1 to
triangles 5-7 given materials with `FirstIndex` 0 and 5 over 8
triangles.  The assignment loop only updates `mat_index` when it finds a
material whose `FirstIndex` exceeds the face index; for faces 5-7 no
such material exists, so `mat_index` keeps its initial value 0 and every
triangle receives material 0.  (For a face below the first material's
`FirstIndex` the loop even produces index -1.) -/
theorem trailing_faces_assigned_material_zero :
    materialIndexList matsD 8 = [0, 0, 0, 0, 0, 0, 0, 0] ∧
    matIndexForFace matsD 5 = 0 ∧
    matIndexForFace matsD 7 = 0 ∧
    materialIndexList matsD 8 ≠ [0, 0, 0, 0, 0, 1, 1, 1] ∧
    matIndexForFace [⟨default, 2, 1⟩] 0 = -1 := by
  refine ⟨rfl, rfl, rfl, ?_, rfl⟩
  decide

/-- Claim C6: a chunk whose tag is unrecognized (or intentionally
unhandled, like TANGENTS) is skipped by advancing the cursor by exactly
the declared byte length, leaving the LOD untouched, and recognized
chunks after it decode correctly: in Scenario C the unknown 16-byte
chunk is skipped from payload start 22 to 38 and the following VERTICES
chunk is decoded, ending exactly at the region bound 70. -/
theorem unhandled_chunk_skip_exact :
    (∀ d lod off, (ReadString d off).1 ∉ decodedTags →
        readChunk d lod off =
          (lod, (ReadString d off).2 + 8 + readU32 d ((ReadString d off).2 + 4))) ∧
    readChunksLoop dScenC default 0 70 =
      ({ (default : FLODData) with Vertices := [List.replicate 12 3] }, 70) ∧
    (readChunk dScenC default 0).2 = 22 + 16 ∧
    readU32 dScenC ((ReadString dScenC 0).2 + 4) = 16 :=
  ⟨readChunk_skip_eq, rfl, rfl, rfl⟩

theorem unhandled_chunk_skip_exact_witness :
    readChunk dScenC default 0 =
      (default, (ReadString dScenC 0).2 + 8 + readU32 dScenC ((ReadString dScenC 0).2 + 4)) :=
  unhandled_chunk_skip_exact.1 dScenC default 0 (by decide)

/-- Claim C7 (Scenario A): the minimal uncompressed `UEMODEL` file with
one LOD holding VERTICES(3) and INDICES(3; values 0,1,2) decodes to a
model with exactly one LOD whose positions array has 3 entries, whose
indices are `[0, 1, 2]`, and whose normals and materials are empty. -/
theorem scenario_a_minimal_model_decode :
    ReadUEFModelData zNone fileA = Except.ok ⟨headerA, [lodA], default⟩ ∧
    lodA.Vertices.length = 3 ∧
    lodA.Indices = [0, 1, 2] ∧
    lodA.Normals = [] ∧
    lodA.Materials = [] :=
  ⟨rfl, rfl, rfl, rfl, rfl⟩

/-- Claim C8: on the compressed path, a decompression service reporting
an output size different from the declared uncompressed size makes the
decode fail with `DecompressionSizeMismatch` (no model is returned, so
nothing beyond the header is populated), and a compression-type string
other than `ZSTD` makes it fail with `UnsupportedCompression`. -/
theorem compressed_decode_error_paths :
    (∀ z file, bytesToString (readBytesList file 0 8) = UEF_MAGIC →
        isCompressedByte file ≠ 0 →
        compTypeStr file = nZSTD →
        (z (compressedPayload file) (declaredUncompressedSize file)).1 ≠
          declaredUncompressedSize file →
        ReadUEFModelData z file = Except.error UEFError.DecompressionSizeMismatch) ∧
    (∀ z file, bytesToString (readBytesList file 0 8) = UEF_MAGIC →
        isCompressedByte file ≠ 0 →
        compTypeStr file ≠ nZSTD →
        ReadUEFModelData z file = Except.error UEFError.UnsupportedCompression) := by
  constructor
  · intro z file hmagic hcomp hct hmm
    simp only [ReadUEFModelData]
    rw [if_neg (not_not_intro hmagic), versionCheckFails_eq_false,
      if_neg Bool.false_ne_true, if_pos hcomp, if_pos hct, if_pos hmm]
  · intro z file hmagic hcomp hct
    simp only [ReadUEFModelData]
    rw [if_neg (not_not_intro hmagic), versionCheckFails_eq_false,
      if_neg Bool.false_ne_true, if_pos hcomp, if_neg hct]

theorem compressed_decode_error_paths_witness :
    ReadUEFModelData z90 fCompMismatch = Except.error UEFError.DecompressionSizeMismatch ∧
    ReadUEFModelData zNone fCompUnsupported = Except.error UEFError.UnsupportedCompression :=
  ⟨compressed_decode_error_paths.1 z90 fCompMismatch rfl (by decide) rfl (by decide),
   compressed_decode_error_paths.2 zNone fCompUnsupported rfl (by decide) (by decide)⟩

/-- Claim C9 counterexample: on a file whose first magic byte differs
from `UEFORMAT`, the decoder does not fail at all — it returns the
freshly allocated default model as a success value, not an
`InvalidMagic` error. -/
theorem invalid_magic_returns_ok_model :
    ReadUEFModelData zNone fBadMagic = Except.ok default ∧
    ReadUEFModelData zNone fBadMagic ≠ Except.error UEFError.InvalidMagic :=
  ⟨rfl, fun h => by
    rw [show ReadUEFModelData zNone fBadMagic = Except.ok default from rfl] at h
    exact Except.noConfusion h⟩

/-- Claim C9 as amended: on any file whose first 8 bytes differ from the
magic signature `UEFORMAT`, decoding stops immediately — none of the
remaining bytes influence the result — but instead of failing with
`InvalidMagic` it returns the freshly allocated model with a default
header and zero LODs as a success value. -/
theorem magic_mismatch_stops_with_default_model :
    ∀ (z : List Nat → Nat → Nat × List Nat) (file : List Nat),
      bytesToString (readBytesList file 0 8) ≠ UEF_MAGIC →
      ReadUEFModelData z file = Except.ok default :=
  readUEF_magic_mismatch

theorem magic_mismatch_stops_with_default_model_witness :
    ReadUEFModelData zNone fBadMagic = Except.ok default :=
  magic_mismatch_stops_with_default_model zNone fBadMagic (by decide)

/-- Claim C10: the public interface's failure modes are not uniform.  A
magic mismatch yields a non-null pointer to a value-initialized model
(default header, zero LODs); file-open failure, a decompression size
mismatch and an unsupported compression type yield a null pointer; and a
caller holding a non-null result cannot tell an invalid-magic input from
a successfully decoded empty model — both come back non-null with zero
LODs.  (The version-check branch also returns null, but its condition is
identically false — see `version_gate_never_rejects` — so it never
executes.) -/
theorem failure_mode_nonuniformity :
    (∀ z file, bytesToString (readBytesList file 0 8) ≠ UEF_MAGIC →
        returnedPtr (ReadUEFModelData z file) = some default) ∧
    (∀ z, returnedPtr (ReadUEFModelDataPath z none) = none) ∧
    returnedPtr (ReadUEFModelData z90 fCompMismatch) = none ∧
    returnedPtr (ReadUEFModelData zNone fCompUnsupported) = none ∧
    (returnedPtr (ReadUEFModelData zNone fBadMagic)).isSome = true ∧
    (returnedPtr (ReadUEFModelData zNone fValidEmpty)).isSome = true ∧
    Option.map FUEModelData.LODs (returnedPtr (ReadUEFModelData zNone fBadMagic)) = some [] ∧
    Option.map FUEModelData.LODs (returnedPtr (ReadUEFModelData zNone fValidEmpty)) = some [] := by
  refine ⟨?_, fun z => rfl, rfl, rfl, rfl, rfl, rfl, rfl⟩
  intro z file h
  rw [readUEF_magic_mismatch z file h]
  rfl

theorem failure_mode_nonuniformity_witness :
    returnedPtr (ReadUEFModelData zNone fBadMagic) = some default ∧
    returnedPtr (ReadUEFModelDataPath zNone none) = none :=
  ⟨failure_mode_nonuniformity.1 zNone fBadMagic (by decide),
   failure_mode_nonuniformity.2.1 zNone⟩

end UEF
